import Mathlib

/-!
Verification of the growth-curve simulator `src/data/fake_growth_data.py`.

The script is a single pass over a nested parameter sweep
(condition × concentration × replicate × time point) that evaluates a
logistic (sigmoid) growth formula with per-replicate jitters and
per-observation Gaussian noise, and collects the rows into a table.

The embedding makes the randomness explicit: a `Draws` record supplies,
for every (condition, concentration, replicate) group, the realised
uniform jitter draws for `max_od` and `growth_rate`, and for every
observation the realised Gaussian noise sample.  The generator is then a
pure function of those draws, exactly as the script is a pure function of
the state of the process-wide random source.  Floating-point arithmetic
is modelled over the reals.
-/

namespace FakeGrowthData

/-- `sigmoid(t, L, k, t0) = L / (1 + exp(-k * (t - t0)))` (lines 8-14). -/
noncomputable def sigmoid (t L k t0 : ℝ) : ℝ :=
  L / (1 + Real.exp (-k * (t - t0)))

/-- `conditions = ['Anaerobic', 'Aerobic']` (line 17). -/
def conditions : List String := ["Anaerobic", "Aerobic"]

/-- `concentrations = ['DMSO', '20', '15', '10', '5', '2.5']` (line 18). -/
def concentrations : List String := ["DMSO", "20", "15", "10", "5", "2.5"]

/-- `replicates = [1, 2, 3]` (line 19). -/
def replicates : List ℕ := [1, 2, 3]

/-- `time_points = np.linspace(0, 24, 13)` = 0, 2, ..., 24 (line 20). -/
noncomputable def time_points : List ℝ :=
  (List.range 13).map fun (i : ℕ) => 2 * (i : ℝ)

/-- `lag_phase = 6` (line 34). -/
noncomputable def lag_phase : ℝ := 6

/-- `noise_level = 0.02` (line 35): the standard deviation of the Gaussian
measurement noise.  In the embedding the realised noise samples are inputs,
so this constant is recorded for reference only. -/
noncomputable def noise_level : ℝ := 0.02

/-- `max_od` after the condition adjustment: default 0.9, lowered to 0.65
for `Anaerobic` (lines 32, 38-39). -/
noncomputable def base_max_od (cond : String) : ℝ :=
  if cond = "Anaerobic" then 0.65 else 0.9

/-- `growth_rate` after the condition adjustment: default 0.8, lowered to
0.7 for `Anaerobic` (lines 33, 38-40). -/
noncomputable def base_growth_rate (cond : String) : ℝ :=
  if cond = "Anaerobic" then 0.7 else 0.8

/-- The concentration multiplier chain applied when `cond == 'Aerobic'`
(lines 44-49); `1` when no branch matches (`DMSO` falls through). -/
noncomputable def aerobic_mult (conc : String) : ℝ :=
  if conc = "20" then 0.85
  else if conc = "15" then 0.90
  else if conc = "10" then 0.94
  else if conc = "5" then 0.97
  else if conc = "2.5" then 0.99
  else 1

/-- The concentration multiplier chain applied when `cond == 'Anaerobic'`
(lines 51-57); `1` when no branch matches (`DMSO` falls through). -/
noncomputable def anaerobic_mult (conc : String) : ℝ :=
  if conc = "20" then 0.94
  else if conc = "15" then 0.94
  else if conc = "10" then 0.95
  else if conc = "5" then 0.97
  else if conc = "2.5" then 0.99
  else 1

/-- The total concentration-dependent inhibition multiplier applied to
`max_od`: the `Aerobic` block and the `Anaerobic` block of the source,
each a no-op for the other condition (lines 44-57). -/
noncomputable def conc_mult (cond conc : String) : ℝ :=
  (if cond = "Aerobic" then aerobic_mult conc else 1) *
  (if cond = "Anaerobic" then anaerobic_mult conc else 1)

/-- The measured optical density of one observation (lines 60-74), with
the realised random draws and the lag phase as explicit arguments:
`jm` is the uniform(0.95, 1.05) jitter drawn for `max_od`, `jr` the
uniform(0.9, 1.1) jitter drawn for `growth_rate`, and `nz` the
Gaussian(0, noise_level) noise sample drawn for this observation. -/
noncomputable def od_value (cond conc : String) (jm jr nz lag t : ℝ) : ℝ :=
  let max_od := base_max_od cond * conc_mult cond conc
  let rep_max_od := max_od * jm
  let rep_growth_rate := base_growth_rate cond * jr
  let base_od := sigmoid t rep_max_od rep_growth_rate lag
  let final_od := max 0.01 (base_od + nz)
  if t = 0 then max 0.01 (0.05 + nz) else final_od

/-- `final_od` at the fixed `lag_phase = 6` used by the script. -/
noncomputable def final_od (cond conc : String) (jm jr nz t : ℝ) : ℝ :=
  od_value cond conc jm jr nz lag_phase t

/-- One output row (lines 77-83). -/
structure Row where
  condition : String
  conc : String
  rep : ℕ
  time : ℝ
  od : ℝ

/-- The realised random draws consumed by one run of the script: for every
(condition, concentration, replicate) group one `max_od` jitter and one
`growth_rate` jitter (lines 60-61), and for every time index of the group
one noise sample (line 69). -/
structure Draws where
  jm : String → String → ℕ → ℝ
  jr : String → String → ℕ → ℝ
  noise : String → String → ℕ → ℕ → ℝ

/-- The time course of one replicate (lines 64-83): one row per time
point, `t = 2 * i` for time index `i < 13`. -/
noncomputable def group_rows (cond conc : String) (rep : ℕ) (jm jr : ℝ)
    (nz : ℕ → ℝ) : List Row :=
  (List.range 13).map fun (i : ℕ) =>
    { condition := cond, conc := conc, rep := rep, time := 2 * (i : ℝ),
      od := final_od cond conc jm jr (nz i) (2 * (i : ℝ)) }

/-- The nested loop header (lines 26-28): all (condition, concentration,
replicate) groups, condition outermost, then concentration, then
replicate. -/
def groups : List (String × String × ℕ) :=
  conditions.flatMap fun cond =>
    concentrations.flatMap fun conc =>
      replicates.map fun rep => (cond, conc, rep)

/-- The full data list built by the script (lines 23-83), as a function of
the realised random draws. -/
noncomputable def generate (d : Draws) : List Row :=
  groups.flatMap fun g =>
    group_rows g.1 g.2.1 g.2.2 (d.jm g.1 g.2.1 g.2.2) (d.jr g.1 g.2.1 g.2.2)
      (d.noise g.1 g.2.1 g.2.2)

/-- The category list of the ordered categorical encoding of the
concentration column: `categories=concentrations, ordered=True`
(lines 89-93). -/
def categories : List String := concentrations

/-- The rank of a level in the categorical order. -/
def cat_rank (s : String) : ℕ := categories.indexOf s

/-- The concentration levels sorted by the defined category order. -/
def sorted_levels : List String :=
  List.insertionSort (fun a b => cat_rank a ≤ cat_rank b) concentrations

/-- A concrete draw assignment: all jitters 1, all noise samples 0. -/
def unit_draws : Draws :=
  ⟨fun _ _ _ => 1, fun _ _ _ => 1, fun _ _ _ _ => 0⟩

/-- A concrete draw assignment: all jitters 1, all noise samples 1. -/
def noisy_draws : Draws :=
  ⟨fun _ _ _ => 1, fun _ _ _ => 1, fun _ _ _ _ => 1⟩

/-- A run with the per-observation noise forced to 0 (the noise-free
variant of the script), keeping the jitter draws. -/
def with_zero_noise (d : Draws) : Draws :=
  { jm := d.jm, jr := d.jr, noise := fun _ _ _ _ => 0 }

/- ### Helper lemmas -/

lemma od_value_floor (cond conc : String) (jm jr nz lag t : ℝ) :
    0.01 ≤ od_value cond conc jm jr nz lag t := by
  simp only [od_value]
  split
  · exact le_max_left _ _
  · exact le_max_left _ _

lemma od_value_at_zero (cond conc : String) (jm jr nz lag : ℝ) :
    od_value cond conc jm jr nz lag 0 = max 0.01 (0.05 + nz) := by
  simp [od_value]

lemma group_rows_length (cond conc : String) (rep : ℕ) (jm jr : ℝ)
    (nz : ℕ → ℝ) : (group_rows cond conc rep jm jr nz).length = 13 := by
  simp [group_rows]

lemma group_rows_proj (cond conc : String) (rep : ℕ) (jm jr : ℝ)
    (nz : ℕ → ℝ) :
    (group_rows cond conc rep jm jr nz).map
        (fun r => (r.condition, r.conc, r.rep, r.time)) =
      time_points.map fun t => (cond, conc, rep, t) := by
  simp [group_rows, time_points, List.map_map]

/- ### C1: shape and order of the generated dataset -/

/-- C1: the generator emits exactly 468 rows, one per (condition,
concentration, replicate, time point) combination, in nested iteration
order with condition outermost, then concentration, then replicate, then
time innermost.  Every record is a total `Row`, so no field is missing. -/
theorem dataset_shape (d : Draws) :
    (generate d).length = 468 ∧
    (generate d).map (fun r => (r.condition, r.conc, r.rep, r.time)) =
      groups.flatMap fun g =>
        time_points.map fun t => (g.1, g.2.1, g.2.2, t) := by
  constructor
  · simp [generate, group_rows_length, groups, conditions, concentrations,
      replicates]
  · rw [generate, List.map_flatMap]
    simp only [group_rows_proj]

/- ### C2: the 0.01 floor on every observation -/

/-- C2: every emitted observation has `Bacterial growth (OD600)` at least
the floor constant 0.01; the floor is applied per observation on both the
sigmoid path and the t = 0 baseline path. -/
theorem generate_od_floor (d : Draws) :
    (generate d).Forall fun r => 0.01 ≤ r.od := by
  rw [List.forall_iff_forall_mem]
  intro r hr
  simp only [generate, List.mem_flatMap] at hr
  obtain ⟨g, -, hg⟩ := hr
  simp only [group_rows, List.mem_map] at hg
  obtain ⟨i, -, rfl⟩ := hg
  exact od_value_floor ..

/- ### C4: the t = 0 baseline path -/

/-- C4: for every draw assignment, in every group the record at time 0
does not use the sigmoid formula: its value is the fixed baseline 0.05
plus that observation's own noise draw, then floored —
`max 0.01 (0.05 + noise)`; in particular, when that noise draw is 0 the
value at time 0 is exactly 0.05. -/
theorem time_zero_baseline (d : Draws) :
    (generate d).Forall fun r => r.time = 0 →
      r.od = max 0.01 (0.05 + d.noise r.condition r.conc r.rep 0) ∧
      (d.noise r.condition r.conc r.rep 0 = 0 → r.od = 0.05) := by
  rw [List.forall_iff_forall_mem]
  intro r hr
  simp only [generate, List.mem_flatMap] at hr
  obtain ⟨g, -, hg⟩ := hr
  simp only [group_rows, List.mem_map] at hg
  obtain ⟨i, -, rfl⟩ := hg
  intro ht
  simp only at ht
  have hi : i = 0 := by
    have h2 : (i : ℝ) = 0 := by linarith
    exact_mod_cast h2
  subst hi
  constructor
  · show final_od _ _ _ _ (d.noise g.1 g.2.1 g.2.2 0) _ =
      max 0.01 (0.05 + d.noise g.1 g.2.1 g.2.2 0)
    rw [final_od]
    norm_num [od_value_at_zero]
  · intro h0
    show final_od _ _ _ _ (d.noise g.1 g.2.1 g.2.2 0) _ = 0.05
    rw [h0, final_od]
    norm_num [od_value_at_zero]

/- ### C8: determinism -/

/-- C8: with the noise level forced to 0, the generated table is a pure
function of the jitter draws delivered by the random source: two runs
whose random sources deliver identical draws produce identical tables. -/
theorem deterministic_generation (d1 d2 : Draws) (hm : d1.jm = d2.jm)
    (hr : d1.jr = d2.jr) :
    generate (with_zero_noise d1) = generate (with_zero_noise d2) := by
  unfold generate with_zero_noise
  rw [hm, hr]

/-- C8 witness: two draw records that agree on the jitters (but differ in
their noise fields, which the noise-free variant discards) generate
identical tables. -/
theorem deterministic_generation_witness :
    generate (with_zero_noise noisy_draws) =
      generate (with_zero_noise unit_draws) :=
  deterministic_generation noisy_draws unit_draws rfl rfl

/- ### C10: the t = 0 value depends only on the noise draw -/

/-- C10: the value emitted at time 0 depends only on that observation's
noise draw: it is independent of the condition, the concentration and the
replicate's jittered parameters, so two groups whose t = 0 noise draws
coincide emit identical t = 0 values. -/
theorem time_zero_ignores_group (c1 s1 : String) (jm1 jr1 : ℝ)
    (c2 s2 : String) (jm2 jr2 : ℝ) (nz : ℝ) :
    final_od c1 s1 jm1 jr1 nz 0 = final_od c2 s2 jm2 jr2 nz 0 := by
  simp [final_od, od_value]

/- ### Numeric bounds on the fixed parameters -/

lemma base_max_od_bounds (cond : String) :
    0.65 ≤ base_max_od cond ∧ base_max_od cond ≤ 0.9 := by
  unfold base_max_od
  split <;> norm_num

lemma base_growth_rate_bounds (cond : String) :
    0.7 ≤ base_growth_rate cond ∧ base_growth_rate cond ≤ 0.8 := by
  unfold base_growth_rate
  split <;> norm_num

lemma aerobic_mult_bounds (conc : String) :
    0.85 ≤ aerobic_mult conc ∧ aerobic_mult conc ≤ 1 := by
  unfold aerobic_mult
  split_ifs <;> norm_num

lemma anaerobic_mult_bounds (conc : String) :
    0.94 ≤ anaerobic_mult conc ∧ anaerobic_mult conc ≤ 1 := by
  unfold anaerobic_mult
  split_ifs <;> norm_num

lemma conc_mult_bounds (cond conc : String) :
    0.72 ≤ conc_mult cond conc ∧ conc_mult cond conc ≤ 1 := by
  obtain ⟨a1, a2⟩ := aerobic_mult_bounds conc
  obtain ⟨b1, b2⟩ := anaerobic_mult_bounds conc
  unfold conc_mult
  split_ifs <;> constructor <;> nlinarith

lemma sigmoid_mono {L k : ℝ} (hL : 0 ≤ L) (hk : 0 ≤ k) (t0 : ℝ) {t1 t2 : ℝ}
    (h : t1 ≤ t2) : sigmoid t1 L k t0 ≤ sigmoid t2 L k t0 := by
  unfold sigmoid
  apply div_le_div_of_nonneg_left hL (by positivity)
  have : Real.exp (-k * (t2 - t0)) ≤ Real.exp (-k * (t1 - t0)) :=
    Real.exp_le_exp.mpr (by nlinarith)
  linarith

lemma sigmoid_at_midpoint (t L k : ℝ) : sigmoid t L k t = L / 2 := by
  unfold sigmoid
  norm_num

lemma exp_32_gt : (17 : ℝ) < Real.exp 3.2 := by
  have h1 : (1.2 : ℝ) ≤ Real.exp 0.2 := by
    have := Real.add_one_le_exp (0.2 : ℝ)
    linarith
  have h2 : Real.exp 3.2 = (Real.exp 0.2) ^ (16 : ℕ) := by
    rw [← Real.exp_nat_mul]
    norm_num
  have h3 : (1.2 : ℝ) ^ (16 : ℕ) ≤ (Real.exp 0.2) ^ (16 : ℕ) :=
    pow_le_pow_left₀ (by norm_num) h1 16
  have h4 : (17 : ℝ) < (1.2 : ℝ) ^ (16 : ℕ) := by norm_num
  rw [h2]
  linarith

lemma od_value_of_ne (cond conc : String) (jm jr nz lag t : ℝ) (ht : t ≠ 0) :
    od_value cond conc jm jr nz lag t =
      max 0.01 (sigmoid t (base_max_od cond * conc_mult cond conc * jm)
        (base_growth_rate cond * jr) lag + nz) := by
  simp only [od_value, if_neg ht]

lemma final_od_of_ne (cond conc : String) (jm jr nz t : ℝ) (ht : t ≠ 0) :
    final_od cond conc jm jr nz t =
      max 0.01 (sigmoid t (base_max_od cond * conc_mult cond conc * jm)
        (base_growth_rate cond * jr) lag_phase + nz) :=
  od_value_of_ne cond conc jm jr nz lag_phase t ht

lemma final_od_mono (cond conc : String) (jm jr : ℝ) (hm : 0 ≤ jm)
    (hr : 0 ≤ jr) {t1 t2 : ℝ} (h1 : t1 ≠ 0) (h2 : t2 ≠ 0) (h : t1 ≤ t2) :
    final_od cond conc jm jr 0 t1 ≤ final_od cond conc jm jr 0 t2 := by
  have ha := (base_max_od_bounds cond).1
  have hb := (conc_mult_bounds cond conc).1
  have hL : 0 ≤ base_max_od cond * conc_mult cond conc * jm :=
    mul_nonneg (mul_nonneg (by linarith) (by linarith)) hm
  have hk : 0 ≤ base_growth_rate cond * jr := by
    have := (base_growth_rate_bounds cond).1
    exact mul_nonneg (by linarith) hr
  rw [final_od_of_ne cond conc jm jr 0 t1 h1,
    final_od_of_ne cond conc jm jr 0 t2 h2]
  exact max_le_max le_rfl (add_le_add_right (sigmoid_mono hL hk _ h) 0)

/- ### C3: the sigmoid path for t > 0 -/

/-- C3: for every time point t > 0, the observation value is the floored
sum of the logistic formula and the observation's noise draw, with
`L` = the replicate's jittered `max_od`, `k` = the replicate's jittered
`growth_rate`, and `t0` = the fixed lag phase; `jm` and `jr` range over
the supports of the uniform jitter distributions. -/
theorem sigmoid_path (cond conc : String) (jm jr nz t : ℝ)
    (hm : 0.95 ≤ jm ∧ jm ≤ 1.05) (hr : 0.9 ≤ jr ∧ jr ≤ 1.1) (ht : 0 < t) :
    final_od cond conc jm jr nz t =
      max 0.01 (sigmoid t (base_max_od cond * conc_mult cond conc * jm)
        (base_growth_rate cond * jr) lag_phase + nz) :=
  final_od_of_ne cond conc jm jr nz t ht.ne'

/-- C3 witness: the first replicate of the Aerobic control at t = 2 with
unit jitters and zero noise. -/
theorem sigmoid_path_witness :
    final_od "Aerobic" "DMSO" 1 1 0 2 =
      max 0.01 (sigmoid 2 (base_max_od "Aerobic" * conc_mult "Aerobic" "DMSO" * 1)
        (base_growth_rate "Aerobic" * 1) lag_phase + 0) :=
  sigmoid_path "Aerobic" "DMSO" 1 1 0 2 (by norm_num) (by norm_num)
    (by norm_num)

/- ### C5: the concentration category order -/

/-- C5 counterexample: sorting the concentration levels by the defined
category order does not return `["20", "15", "10", "5", "2.5", "DMSO"]`:
the script passes `categories=concentrations` with the control label
`DMSO` first. -/
theorem concentration_order_counterexample :
    sorted_levels ≠ ["20", "15", "10", "5", "2.5", "DMSO"] := by decide

/-- C5 amended: the concentration column is an ordered categorical field
whose category order puts the control label `DMSO` first, followed by the
doses from highest to lowest: sorting by the category order returns
`["DMSO", "20", "15", "10", "5", "2.5"]`. -/
theorem concentration_order :
    sorted_levels = ["DMSO", "20", "15", "10", "5", "2.5"] := rfl

/- ### C6: monotonicity of the noise-free time course -/

/-- C6 counterexample: with all noise draws 0 and unit jitters, the time
course of the Aerobic control replicate is not non-decreasing: the t = 0
baseline override emits 0.05 while the sigmoid value at t = 2 is
`0.9 / (1 + exp(3.2)) < 0.05`. -/
theorem growth_monotone_counterexample :
    ¬ List.Chain' (· ≤ ·)
      ((group_rows "Aerobic" "DMSO" 1 1 1 fun _ => 0).map Row.od) := by
  intro hch
  rw [group_rows,
    show List.range 13 = [0, 1, 2, 3, 4, 5, 6, 7, 8, 9, 10, 11, 12]
      from rfl] at hch
  simp only [List.map_cons, List.map_nil, List.chain'_cons] at hch
  have h1 := hch.1
  have e0 : final_od "Aerobic" "DMSO" 1 1 0 (2 * ((0 : ℕ) : ℝ)) = 0.05 := by
    norm_num [final_od, od_value, max_def]
  have e1 : final_od "Aerobic" "DMSO" 1 1 0 (2 * ((1 : ℕ) : ℝ)) < 0.05 := by
    rw [final_od_of_ne "Aerobic" "DMSO" 1 1 0 (2 * ((1 : ℕ) : ℝ))
      (by norm_num)]
    have harg : sigmoid (2 * ((1 : ℕ) : ℝ))
        (base_max_od "Aerobic" * conc_mult "Aerobic" "DMSO" * 1)
        (base_growth_rate "Aerobic" * 1) lag_phase =
        0.9 / (1 + Real.exp 3.2) := by
      simp [sigmoid, base_max_od, base_growth_rate, conc_mult, aerobic_mult,
        anaerobic_mult, lag_phase]
      norm_num
    rw [harg, add_zero]
    refine max_lt (by norm_num) ?_
    rw [div_lt_iff₀ (by positivity)]
    have := exp_32_gt
    linarith
  rw [e0] at h1
  linarith

/-- C6 amended: with noise disabled the generated values are non-decreasing
from the second time point on (the sigmoid path, where the logistic
function is monotone in time for the nonnegative `k` and `L` of every
group); the step from the t = 0 baseline override to the t = 2 sigmoid
value can decrease. -/
theorem growth_monotone_after_start (cond conc : String) (rep : ℕ)
    (jm jr : ℝ) (hm : 0 ≤ jm) (hr : 0 ≤ jr) :
    List.Chain' (· ≤ ·)
      (((group_rows cond conc rep jm jr fun _ => 0).map Row.od).drop 1) := by
  have key : ∀ t1 t2 : ℝ, t1 ≠ 0 → t2 ≠ 0 → t1 ≤ t2 →
      final_od cond conc jm jr 0 t1 ≤ final_od cond conc jm jr 0 t2 :=
    fun t1 t2 h1 h2 h => final_od_mono cond conc jm jr hm hr h1 h2 h
  rw [group_rows,
    show List.range 13 = [0, 1, 2, 3, 4, 5, 6, 7, 8, 9, 10, 11, 12]
      from rfl]
  simp only [List.map_cons, List.map_nil, List.drop_succ_cons,
    List.drop_zero, List.chain'_cons, List.chain'_singleton, and_true]
  refine ⟨?_, ?_, ?_, ?_, ?_, ?_, ?_, ?_, ?_, ?_, ?_⟩ <;>
    exact key _ _ (by norm_num) (by norm_num) (by norm_num)

/-- C6 witness: the amended monotonicity at unit jitters for the first
Anaerobic control replicate. -/
theorem growth_monotone_after_start_witness :
    List.Chain' (· ≤ ·)
      (((group_rows "Anaerobic" "DMSO" 1 1 1 fun _ => 0).map Row.od).drop 1) :=
  growth_monotone_after_start "Anaerobic" "DMSO" 1 1 1 (by norm_num)
    (by norm_num)

/- ### C7: the concentration inhibition multipliers -/

/-- C7 counterexample: the dose-to-multiplier map is not strictly
decreasing within the Anaerobic condition (doses 20 and 15 share the
multiplier 0.94), and the Anaerobic suppression is not strictly weaker at
every dose than the Aerobic one (at doses 5 and 2.5 both conditions use
the same multiplier, here shown at dose 5). -/
theorem inhibition_counterexample :
    ¬ (conc_mult "Anaerobic" "20" < conc_mult "Anaerobic" "15") ∧
    ¬ (conc_mult "Aerobic" "5" < conc_mult "Anaerobic" "5") := by
  constructor <;> simp [conc_mult, aerobic_mult, anaerobic_mult]

/-- C7 amended: within each condition the inhibition multiplier is
non-increasing as the dose increases — strictly decreasing for Aerobic,
while for Anaerobic the doses 20 and 15 share the multiplier 0.94 — the
control label DMSO applies multiplier 1.0 in both conditions, and at every
dose the Anaerobic multiplier is at least the Aerobic one: strictly larger
(weaker suppression) at doses 20, 15 and 10, equal at doses 5 and 2.5. -/
theorem inhibition_multipliers :
    (conc_mult "Aerobic" "20" < conc_mult "Aerobic" "15" ∧
     conc_mult "Aerobic" "15" < conc_mult "Aerobic" "10" ∧
     conc_mult "Aerobic" "10" < conc_mult "Aerobic" "5" ∧
     conc_mult "Aerobic" "5" < conc_mult "Aerobic" "2.5" ∧
     conc_mult "Aerobic" "2.5" < conc_mult "Aerobic" "DMSO") ∧
    (conc_mult "Anaerobic" "20" = conc_mult "Anaerobic" "15" ∧
     conc_mult "Anaerobic" "15" < conc_mult "Anaerobic" "10" ∧
     conc_mult "Anaerobic" "10" < conc_mult "Anaerobic" "5" ∧
     conc_mult "Anaerobic" "5" < conc_mult "Anaerobic" "2.5" ∧
     conc_mult "Anaerobic" "2.5" < conc_mult "Anaerobic" "DMSO") ∧
    (conc_mult "Aerobic" "DMSO" = 1 ∧ conc_mult "Anaerobic" "DMSO" = 1) ∧
    (conc_mult "Aerobic" "20" < conc_mult "Anaerobic" "20" ∧
     conc_mult "Aerobic" "15" < conc_mult "Anaerobic" "15" ∧
     conc_mult "Aerobic" "10" < conc_mult "Anaerobic" "10" ∧
     conc_mult "Aerobic" "5" = conc_mult "Anaerobic" "5" ∧
     conc_mult "Aerobic" "2.5" = conc_mult "Anaerobic" "2.5") := by
  refine ⟨⟨?_, ?_, ?_, ?_, ?_⟩, ⟨?_, ?_, ?_, ?_, ?_⟩, ⟨?_, ?_⟩,
    ?_, ?_, ?_, ?_, ?_⟩ <;>
    simp [conc_mult, aerobic_mult, anaerobic_mult] <;> norm_num

/- ### C9: lag phase moved to the maximum time point -/

/-- C9 counterexample: with noise 0, unit jitters and the lag phase set to
the maximum time point 24, the Aerobic control value at the final time
point t = 24 equals the replicate's `max_od / 2 = 0.9 / 2` exactly — the
sigmoid is exactly at its midpoint, not below it. -/
theorem lag_at_end_counterexample :
    od_value "Aerobic" "DMSO" 1 1 0 24 24 = 0.9 / 2 ∧
    ¬ (od_value "Aerobic" "DMSO" 1 1 0 24 24 < 0.9 / 2) := by
  have hv : od_value "Aerobic" "DMSO" 1 1 0 24 24 = 0.9 / 2 := by
    rw [od_value_of_ne "Aerobic" "DMSO" 1 1 0 24 24 (by norm_num),
      sigmoid_at_midpoint, add_zero]
    simp [base_max_od, conc_mult, aerobic_mult, anaerobic_mult, max_def]
    norm_num
  exact ⟨hv, by rw [hv]; exact lt_irrefl _⟩

/-- C9 amended: with noise level 0 and the lag phase set equal to the
maximum time point 24, the value at the final time point equals exactly
half the replicate's jittered `max_od` — the sigmoid is exactly at its
midpoint, so it is not strictly below `max_od / 2`. -/
theorem lag_at_end (cond conc : String) (jm jr : ℝ) (hm : 0.95 ≤ jm) :
    od_value cond conc jm jr 0 24 24 =
      base_max_od cond * conc_mult cond conc * jm / 2 := by
  rw [od_value_of_ne cond conc jm jr 0 24 24 (by norm_num),
    sigmoid_at_midpoint, add_zero]
  have ha := (base_max_od_bounds cond).1
  have hb := (conc_mult_bounds cond conc).1
  have h1 : (0.72 : ℝ) * 0.65 ≤ base_max_od cond * conc_mult cond conc := by
    nlinarith
  have h2 : (0.72 : ℝ) * 0.65 * 0.95 ≤
      base_max_od cond * conc_mult cond conc * jm := by
    nlinarith
  have hL : (0.01 : ℝ) ≤ base_max_od cond * conc_mult cond conc * jm / 2 := by
    linarith
  rw [max_eq_right hL]

/-- C9 witness: the amended statement at the first Anaerobic dose-20
replicate with unit jitters. -/
theorem lag_at_end_witness :
    od_value "Anaerobic" "20" 1 1 0 24 24 =
      base_max_od "Anaerobic" * conc_mult "Anaerobic" "20" * 1 / 2 :=
  lag_at_end "Anaerobic" "20" 1 1 (by norm_num)

end FakeGrowthData
